import Mathlib

/-!
Shallow embedding of `src/domain/recipe.rs`: the Recipe aggregate and its
five value objects (RecipeId, RecipeName, RecipeTags, RecipeIngredients,
RecipeInstructions), each with a fallible smart constructor (`tryFrom`,
mirroring Rust's `TryFrom`) and a read accessor (`value`).  Rust `String`
is Lean `String`, `Vec<String>` is `List String`, `Result<T, E>` is
`Except E T`, `Option<DateTime<Local>>` is `Option Nat` with the clock
(`Local::now()`) modelled as an explicit input `now : Nat`.
-/

namespace RecipesDomain

/-- Rust `RecipeId(Option<String>)`: optional external identity of a recipe. -/
structure RecipeId where
  val : Option String
  deriving DecidableEq

/-- Accessor `RecipeId::value`: read accessor for the wrapped optional string. -/
def RecipeId.value (r : RecipeId) : Option String := r.val

/-- Rust `impl TryFrom<String> for RecipeId`: empty string becomes the absent
identity `none`, any non-empty string becomes the assigned identity. -/
def RecipeId.tryFrom (id : String) : Except String RecipeId :=
  if id.isEmpty then
    Except.ok ⟨none⟩
  else
    Except.ok ⟨some id⟩

/-- Rust `RecipeName(String)`: required non-empty recipe title. -/
structure RecipeName where
  val : String
  deriving DecidableEq

/-- Accessor `RecipeName::value`: read accessor for the wrapped string. -/
def RecipeName.value (n : RecipeName) : String := n.val

/-- Rust `impl TryFrom<String> for RecipeName`: rejects the empty string. -/
def RecipeName.tryFrom (value : String) : Except String RecipeName :=
  if value.isEmpty then
    Except.error "A receita precisa ter um nome"
  else
    Except.ok ⟨value⟩

/-- Rust `RecipeTags(Vec<String>)`: required non-empty list of tags. -/
structure RecipeTags where
  val : List String
  deriving DecidableEq

/-- Accessor `RecipeTags::value`: read accessor for the wrapped list. -/
def RecipeTags.value (t : RecipeTags) : List String := t.val

/-- Rust `impl TryFrom<Vec<String>> for RecipeTags`: rejects the empty list. -/
def RecipeTags.tryFrom (value : List String) : Except String RecipeTags :=
  if value.isEmpty then
    Except.error "A receita precisa pelo menos de uma tag"
  else
    Except.ok ⟨value⟩

/-- Rust `RecipeIngredients(Vec<String>)`: required non-empty ingredient list. -/
structure RecipeIngredients where
  val : List String
  deriving DecidableEq

/-- Accessor `RecipeIngredients::value`: read accessor for the wrapped list. -/
def RecipeIngredients.value (i : RecipeIngredients) : List String := i.val

/-- Rust `impl TryFrom<Vec<String>> for RecipeIngredients`: rejects the empty
list. -/
def RecipeIngredients.tryFrom (value : List String) :
    Except String RecipeIngredients :=
  if value.isEmpty then
    Except.error "A receita precisa pelo menos de um ingrediente"
  else
    Except.ok ⟨value⟩

/-- Rust `RecipeInstructions(Vec<String>)`: required non-empty step list. -/
structure RecipeInstructions where
  val : List String
  deriving DecidableEq

/-- Accessor `RecipeInstructions::value`: read accessor for the wrapped list. -/
def RecipeInstructions.value (i : RecipeInstructions) : List String := i.val

/-- Rust `impl TryFrom<Vec<String>> for RecipeInstructions`: rejects the empty
list. -/
def RecipeInstructions.tryFrom (value : List String) :
    Except String RecipeInstructions :=
  if value.isEmpty then
    Except.error "A receita precisa pelo menos de uma instrução"
  else
    Except.ok ⟨value⟩

/-- The `Recipe` aggregate: five validated values plus the optional
publication timestamp (`Option<DateTime<Local>>`, modelled as
`Option Nat`). -/
structure Recipe where
  id : RecipeId
  name : RecipeName
  tags : RecipeTags
  ingredients : RecipeIngredients
  instructions : RecipeInstructions
  published_at : Option Nat
  deriving DecidableEq

/-- Rust `Recipe::new`: sequences the five `try_from` validations with `?`
(each `match` arm propagates the error string unchanged, as `?` does),
then stamps `published_at` with the current time.  `Local::now()` is the
explicit argument `now`. -/
def Recipe.new (id name : String) (tags ingredients instructions : List String)
    (now : Nat) : Except String Recipe :=
  match RecipeId.tryFrom id with
  | Except.error e => Except.error e
  | Except.ok recipe_id =>
    match RecipeName.tryFrom name with
    | Except.error e => Except.error e
    | Except.ok recipe_name =>
      match RecipeTags.tryFrom tags with
      | Except.error e => Except.error e
      | Except.ok recipe_tags =>
        match RecipeIngredients.tryFrom ingredients with
        | Except.error e => Except.error e
        | Except.ok recipe_ingredients =>
          match RecipeInstructions.tryFrom instructions with
          | Except.error e => Except.error e
          | Except.ok recipe_instructions =>
            Except.ok
              { id := recipe_id
                name := recipe_name
                tags := recipe_tags
                ingredients := recipe_ingredients
                instructions := recipe_instructions
                published_at := some now }

/-- Accessor `Recipe::id`. -/
def Recipe.idAcc (r : Recipe) : RecipeId := r.id

/-- Accessor `Recipe::name`. -/
def Recipe.nameAcc (r : Recipe) : RecipeName := r.name

/-- Accessor `Recipe::tags`. -/
def Recipe.tagsAcc (r : Recipe) : RecipeTags := r.tags

/-- Accessor `Recipe::ingredients`. -/
def Recipe.ingredientsAcc (r : Recipe) : RecipeIngredients := r.ingredients

/-- Accessor `Recipe::instructions`. -/
def Recipe.instructionsAcc (r : Recipe) : RecipeInstructions := r.instructions

/-- The four error messages that occur in the `TryFrom` implementations,
in validation order. -/
def recipeErrorMessages : List String :=
  [ "A receita precisa ter um nome"
  , "A receita precisa pelo menos de uma tag"
  , "A receita precisa pelo menos de um ingrediente"
  , "A receita precisa pelo menos de uma instrução" ]

end RecipesDomain

namespace RecipesDomain

/-! Helper lemmas shared by the claim theorems. -/

/-- Unconditional characterization of `RecipeId.tryFrom`: it always
succeeds, normalizing the empty string to the absent identity. -/
theorem RecipeId.tryFrom_eq (id : String) :
    RecipeId.tryFrom id = Except.ok ⟨if id = "" then none else some id⟩ := by
  simp only [RecipeId.tryFrom, String.isEmpty_iff]
  split <;> simp_all

/-- Any non-empty name is accepted unchanged. -/
theorem RecipeName.tryFrom_ok_name (value : String) (h : value ≠ "") :
    RecipeName.tryFrom value = Except.ok ⟨value⟩ := by
  simp [RecipeName.tryFrom, String.isEmpty_iff, h]

/-- Any non-empty tag list is accepted unchanged. -/
theorem RecipeTags.tryFrom_ok_tags (value : List String) (h : value ≠ []) :
    RecipeTags.tryFrom value = Except.ok ⟨value⟩ := by
  simp [RecipeTags.tryFrom, h]

/-- Any non-empty ingredient list is accepted unchanged. -/
theorem RecipeIngredients.tryFrom_ok_ingredients (value : List String) (h : value ≠ []) :
    RecipeIngredients.tryFrom value = Except.ok ⟨value⟩ := by
  simp [RecipeIngredients.tryFrom, h]

/-- Any non-empty instruction list is accepted unchanged. -/
theorem RecipeInstructions.tryFrom_ok_instructions (value : List String) (h : value ≠ []) :
    RecipeInstructions.tryFrom value = Except.ok ⟨value⟩ := by
  simp [RecipeInstructions.tryFrom, h]

/-- Closed-form characterization of `Recipe.new`: the five validations in
their fixed order, short-circuiting on the first failure, then the
assembled recipe stamped with `now`. -/
theorem Recipe.new_eq (id name : String)
    (tags ingredients instructions : List String) (now : Nat) :
    Recipe.new id name tags ingredients instructions now =
      if name = "" then
        Except.error "A receita precisa ter um nome"
      else if tags = [] then
        Except.error "A receita precisa pelo menos de uma tag"
      else if ingredients = [] then
        Except.error "A receita precisa pelo menos de um ingrediente"
      else if instructions = [] then
        Except.error "A receita precisa pelo menos de uma instrução"
      else
        Except.ok
          { id := ⟨if id = "" then none else some id⟩
            name := ⟨name⟩
            tags := ⟨tags⟩
            ingredients := ⟨ingredients⟩
            instructions := ⟨instructions⟩
            published_at := some now } := by
  simp only [Recipe.new, RecipeId.tryFrom, RecipeName.tryFrom, RecipeTags.tryFrom,
    RecipeIngredients.tryFrom, RecipeInstructions.tryFrom, String.isEmpty_iff,
    List.isEmpty_iff]
  split_ifs <;> rfl

/-- A message is a possible construction failure when some input makes
`Recipe.new` return it as the error. -/
def errPossible (m : String) : Prop :=
  ∃ (id name : String) (tags ingredients instructions : List String) (now : Nat),
    Recipe.new id name tags ingredients instructions now = Except.error m

/-- Every error `Recipe.new` can return is one of the four fixed
messages. -/
theorem errPossible_mem {m : String} (h : errPossible m) :
    m ∈ recipeErrorMessages := by
  obtain ⟨id, name, tags, ingredients, instructions, now, h⟩ := h
  rw [Recipe.new_eq] at h
  split_ifs at h <;> simp_all [recipeErrorMessages]

end RecipesDomain

namespace RecipesDomain

/-- C1: for every non-empty name and non-empty tag, ingredient and
instruction lists, and any identifier string (including empty),
`Recipe::new` returns `Ok`, and reading back through the per-field
accessors composed with each value object's `value` accessor yields
primitives structurally equal to the raw inputs (round-trip law). -/
theorem C1_recipe_new_roundtrip (id name : String)
    (tags ingredients instructions : List String) (now : Nat)
    (hn : name ≠ "") (ht : tags ≠ []) (hi : ingredients ≠ [])
    (hs : instructions ≠ []) :
    ∃ r : Recipe,
      Recipe.new id name tags ingredients instructions now = Except.ok r ∧
      r.nameAcc.value = name ∧
      r.tagsAcc.value = tags ∧
      r.ingredientsAcc.value = ingredients ∧
      r.instructionsAcc.value = instructions := by
  refine ⟨{ id := ⟨if id = "" then none else some id⟩
            name := ⟨name⟩
            tags := ⟨tags⟩
            ingredients := ⟨ingredients⟩
            instructions := ⟨instructions⟩
            published_at := some now }, ?_, rfl, rfl, rfl, rfl⟩
  rw [Recipe.new_eq, if_neg hn, if_neg ht, if_neg hi, if_neg hs]

/-- C1 witness: the round-trip law at the concrete scenario of the
repository's test. -/
theorem C1_witness :
    ∃ r : Recipe,
      Recipe.new "10" "Oregano Marinated Chicken" ["main", "chicken"]
          ["4 (6 to 7-ounce) boneless skinless chicken breasts"]
          ["To marinate the chicken: combine the lemon juice and mix"] 0 =
        Except.ok r ∧
      r.nameAcc.value = "Oregano Marinated Chicken" ∧
      r.tagsAcc.value = ["main", "chicken"] ∧
      r.ingredientsAcc.value =
        ["4 (6 to 7-ounce) boneless skinless chicken breasts"] ∧
      r.instructionsAcc.value =
        ["To marinate the chicken: combine the lemon juice and mix"] :=
  C1_recipe_new_roundtrip "10" "Oregano Marinated Chicken" ["main", "chicken"]
    ["4 (6 to 7-ounce) boneless skinless chicken breasts"]
    ["To marinate the chicken: combine the lemon juice and mix"] 0
    (by decide) (by decide) (by decide) (by decide)

/-- C2: validation in `Recipe::new` is fail-fast in the fixed order
identifier, name, tags, ingredients, instructions: the error reported is
the one for the first invalid field in that order (the identifier never
fails); in particular an empty name wins over empty lists. -/
theorem C2_recipe_new_fail_fast (id name : String)
    (tags ingredients instructions : List String) (now : Nat) :
    (name = "" →
      Recipe.new id name tags ingredients instructions now =
        Except.error "A receita precisa ter um nome") ∧
    (name ≠ "" → tags = [] →
      Recipe.new id name tags ingredients instructions now =
        Except.error "A receita precisa pelo menos de uma tag") ∧
    (name ≠ "" → tags ≠ [] → ingredients = [] →
      Recipe.new id name tags ingredients instructions now =
        Except.error "A receita precisa pelo menos de um ingrediente") ∧
    (name ≠ "" → tags ≠ [] → ingredients ≠ [] → instructions = [] →
      Recipe.new id name tags ingredients instructions now =
        Except.error "A receita precisa pelo menos de uma instrução") := by
  refine ⟨?_, ?_, ?_, ?_⟩
  · intro h1
    rw [Recipe.new_eq, if_pos h1]
  · intro h1 h2
    rw [Recipe.new_eq, if_neg h1, if_pos h2]
  · intro h1 h2 h3
    rw [Recipe.new_eq, if_neg h1, if_neg h2, if_pos h3]
  · intro h1 h2 h3 h4
    rw [Recipe.new_eq, if_neg h1, if_neg h2, if_neg h3, if_pos h4]

/-- C2 witness: with name = "" and tags = [] simultaneously invalid, the
reported error is the MissingName message. -/
theorem C2_witness :
    Recipe.new "10" "" [] ["i"] ["s"] 0 =
      Except.error "A receita precisa ter um nome" :=
  (C2_recipe_new_fail_fast "10" "" [] ["i"] ["s"] 0).1 rfl

/-- C3: `RecipeId::try_from` is total — it never returns an error: the
empty string maps to the absent identity `none` and every non-empty
string `s` maps to the assigned identity `some s`. -/
theorem C3_recipeId_tryFrom_total (s : String) :
    ∃ r : RecipeId, RecipeId.tryFrom s = Except.ok r ∧
      r.value = if s = "" then none else some s :=
  ⟨⟨if s = "" then none else some s⟩, RecipeId.tryFrom_eq s, rfl⟩

/-- C4: for an empty name (whatever the other fields are, in particular
for all valid ones), `Recipe::new` returns `Err` with exactly the
MissingName message and produces no `Recipe` value. -/
theorem C4_recipe_new_missing_name (id : String)
    (tags ingredients instructions : List String) (now : Nat) :
    Recipe.new id "" tags ingredients instructions now =
      Except.error "A receita precisa ter um nome" := by
  rw [Recipe.new_eq, if_pos rfl]

/-- C5: with the name valid, `Recipe::new` fails with exactly the
field-specific message for whichever single list is empty: tags, then
ingredients, then instructions. -/
theorem C5_recipe_new_missing_list (id name : String)
    (tags ingredients instructions : List String) (now : Nat)
    (hn : name ≠ "") :
    (tags = [] →
      Recipe.new id name tags ingredients instructions now =
        Except.error "A receita precisa pelo menos de uma tag") ∧
    (tags ≠ [] → ingredients = [] →
      Recipe.new id name tags ingredients instructions now =
        Except.error "A receita precisa pelo menos de um ingrediente") ∧
    (tags ≠ [] → ingredients ≠ [] → instructions = [] →
      Recipe.new id name tags ingredients instructions now =
        Except.error "A receita precisa pelo menos de uma instrução") := by
  refine ⟨?_, ?_, ?_⟩
  · intro h2
    rw [Recipe.new_eq, if_neg hn, if_pos h2]
  · intro h2 h3
    rw [Recipe.new_eq, if_neg hn, if_neg h2, if_pos h3]
  · intro h2 h3 h4
    rw [Recipe.new_eq, if_neg hn, if_neg h2, if_neg h3, if_pos h4]

/-- C5 witness: the three single-empty-list failures at concrete inputs
with all other fields valid. -/
theorem C5_witness :
    Recipe.new "10" "Oregano" [] ["i"] ["s"] 0 =
      Except.error "A receita precisa pelo menos de uma tag" ∧
    Recipe.new "10" "Oregano" ["main"] [] ["s"] 0 =
      Except.error "A receita precisa pelo menos de um ingrediente" ∧
    Recipe.new "10" "Oregano" ["main"] ["i"] [] 0 =
      Except.error "A receita precisa pelo menos de uma instrução" :=
  ⟨(C5_recipe_new_missing_list "10" "Oregano" [] ["i"] ["s"] 0
      (by decide)).1 rfl,
   (C5_recipe_new_missing_list "10" "Oregano" ["main"] [] ["s"] 0
      (by decide)).2.1 (by decide) rfl,
   (C5_recipe_new_missing_list "10" "Oregano" ["main"] ["i"] [] 0
      (by decide)).2.2 (by decide) (by decide) rfl⟩

end RecipesDomain

namespace RecipesDomain

/-- C6 counterexample: the claim that the error taxonomy contains exactly
FIVE possible failure reasons is false — there is no family of five
pairwise-distinct messages each returnable by `Recipe::new`, because every
returnable error is one of only four fixed messages (the identifier has no
failure mode). -/
theorem C6_counterexample :
    ¬ ∃ m1 m2 m3 m4 m5 : String,
        (m1 ≠ m2 ∧ m1 ≠ m3 ∧ m1 ≠ m4 ∧ m1 ≠ m5 ∧ m2 ≠ m3 ∧ m2 ≠ m4 ∧
          m2 ≠ m5 ∧ m3 ≠ m4 ∧ m3 ≠ m5 ∧ m4 ≠ m5) ∧
        errPossible m1 ∧ errPossible m2 ∧ errPossible m3 ∧
        errPossible m4 ∧ errPossible m5 := by
  rintro ⟨m1, m2, m3, m4, m5, hne, h1, h2, h3, h4, h5⟩
  have k1 := errPossible_mem h1
  have k2 := errPossible_mem h2
  have k3 := errPossible_mem h3
  have k4 := errPossible_mem h4
  have k5 := errPossible_mem h5
  have hsub : [m1, m2, m3, m4, m5] ⊆ recipeErrorMessages := by
    intro x hx
    simp only [List.mem_cons, List.not_mem_nil, or_false] at hx
    rcases hx with rfl | rfl | rfl | rfl | rfl <;> assumption
  have hnd : [m1, m2, m3, m4, m5].Nodup := by
    obtain ⟨n12, n13, n14, n15, n23, n24, n25, n34, n35, n45⟩ := hne
    simp [List.nodup_cons, List.mem_cons, n12, n13, n14, n15, n23, n24, n25,
      n34, n35, n45]
  have hle := (hnd.subperm hsub).length_le
  simp only [recipeErrorMessages, List.length_cons, List.length_nil] at hle
  omega

/-- C6 (amended): the error taxonomy of Recipe construction contains
exactly FOUR possible failure reasons (name, tags, ingredients,
instructions; the identifier never fails), each a fixed human-readable
message, pairwise distinct; every error value `Recipe::new` can return
belongs to this fixed set, and each member of the set is actually
returnable. -/
theorem C6_error_taxonomy_four :
    recipeErrorMessages.length = 4 ∧
    recipeErrorMessages.Nodup ∧
    (∀ (id name : String) (tags ingredients instructions : List String)
        (now : Nat) (e : String),
        Recipe.new id name tags ingredients instructions now =
          Except.error e →
        e ∈ recipeErrorMessages) ∧
    (∀ e ∈ recipeErrorMessages,
        ∃ (id name : String) (tags ingredients instructions : List String)
          (now : Nat),
          Recipe.new id name tags ingredients instructions now =
            Except.error e) := by
  refine ⟨rfl, by decide, ?_, ?_⟩
  · intro id name tags ingredients instructions now e h
    exact errPossible_mem ⟨id, name, tags, ingredients, instructions, now, h⟩
  · intro e he
    simp only [recipeErrorMessages, List.mem_cons, List.not_mem_nil,
      or_false] at he
    rcases he with rfl | rfl | rfl | rfl
    · exact ⟨"", "", ["t"], ["i"], ["s"], 0, rfl⟩
    · exact ⟨"", "x", [], ["i"], ["s"], 0, rfl⟩
    · exact ⟨"", "x", ["t"], [], ["s"], 0, rfl⟩
    · exact ⟨"", "x", ["t"], ["i"], [], 0, rfl⟩

/-- C6 witness: the MissingName message belongs to the taxonomy, via the
completeness part of the amended theorem at a concrete input. -/
theorem C6_witness :
    "A receita precisa ter um nome" ∈ recipeErrorMessages :=
  C6_error_taxonomy_four.2.2.1 "" "" [] [] [] 0
    "A receita precisa ter um nome" rfl

/-- C7: whenever `Recipe::new` fails, its error equals exactly the error
produced by the first failing value-object constructor in the fixed order
(the identifier constructor never fails), propagated upward unchanged. -/
theorem C7_recipe_new_propagates (id name : String)
    (tags ingredients instructions : List String) (now : Nat) (e : String)
    (h : Recipe.new id name tags ingredients instructions now =
      Except.error e) :
    RecipeName.tryFrom name = Except.error e ∨
    ((∃ n, RecipeName.tryFrom name = Except.ok n) ∧
      RecipeTags.tryFrom tags = Except.error e) ∨
    ((∃ n, RecipeName.tryFrom name = Except.ok n) ∧
      (∃ t, RecipeTags.tryFrom tags = Except.ok t) ∧
      RecipeIngredients.tryFrom ingredients = Except.error e) ∨
    ((∃ n, RecipeName.tryFrom name = Except.ok n) ∧
      (∃ t, RecipeTags.tryFrom tags = Except.ok t) ∧
      (∃ i, RecipeIngredients.tryFrom ingredients = Except.ok i) ∧
      RecipeInstructions.tryFrom instructions = Except.error e) := by
  rw [Recipe.new_eq] at h
  split_ifs at h with h1 h2 h3 h4
  · subst h1
    injection h with he
    subst he
    exact Or.inl rfl
  · subst h2
    injection h with he
    subst he
    exact Or.inr (Or.inl ⟨⟨⟨name⟩, RecipeName.tryFrom_ok_name name h1⟩, rfl⟩)
  · subst h3
    injection h with he
    subst he
    exact Or.inr (Or.inr (Or.inl
      ⟨⟨⟨name⟩, RecipeName.tryFrom_ok_name name h1⟩,
       ⟨⟨tags⟩, RecipeTags.tryFrom_ok_tags tags h2⟩, rfl⟩))
  · subst h4
    injection h with he
    subst he
    exact Or.inr (Or.inr (Or.inr
      ⟨⟨⟨name⟩, RecipeName.tryFrom_ok_name name h1⟩,
       ⟨⟨tags⟩, RecipeTags.tryFrom_ok_tags tags h2⟩,
       ⟨⟨ingredients⟩, RecipeIngredients.tryFrom_ok_ingredients ingredients h3⟩, rfl⟩))

/-- C7 witness: at the concrete failing input with an empty name, the
aggregate's error is exactly the name constructor's own error. -/
theorem C7_witness :
    RecipeName.tryFrom "" =
      Except.error "A receita precisa ter um nome" ∨
    ((∃ n, RecipeName.tryFrom "" = Except.ok n) ∧
      RecipeTags.tryFrom ["main"] =
        Except.error "A receita precisa ter um nome") ∨
    ((∃ n, RecipeName.tryFrom "" = Except.ok n) ∧
      (∃ t, RecipeTags.tryFrom ["main"] = Except.ok t) ∧
      RecipeIngredients.tryFrom ["i"] =
        Except.error "A receita precisa ter um nome") ∨
    ((∃ n, RecipeName.tryFrom "" = Except.ok n) ∧
      (∃ t, RecipeTags.tryFrom ["main"] = Except.ok t) ∧
      (∃ i, RecipeIngredients.tryFrom ["i"] = Except.ok i) ∧
      RecipeInstructions.tryFrom ["s"] =
        Except.error "A receita precisa ter um nome") :=
  C7_recipe_new_propagates "10" "" ["main"] ["i"] ["s"] 0
    "A receita precisa ter um nome" rfl

/-- C8: on successful construction the publication timestamp is set, not
absent, to the construction time obtained from the clock: with the clock
modelled as the explicit input `now`, the resulting `published_at` equals
`some now`. -/
theorem C8_recipe_new_published_at (id name : String)
    (tags ingredients instructions : List String) (now : Nat) (r : Recipe)
    (h : Recipe.new id name tags ingredients instructions now =
      Except.ok r) :
    r.published_at = some now := by
  rw [Recipe.new_eq] at h
  split_ifs at h
  all_goals
    injection h with hr
    subst hr
    rfl

/-- C8 witness: the concrete recipe produced at clock value 7 carries
`published_at = some 7`. -/
theorem C8_witness :
    ({ id := ⟨some "10"⟩, name := ⟨"a"⟩, tags := ⟨["t"]⟩,
       ingredients := ⟨["i"]⟩, instructions := ⟨["s"]⟩,
       published_at := some 7 } : Recipe).published_at = some 7 :=
  C8_recipe_new_published_at "10" "a" ["t"] ["i"] ["s"] 7
    { id := ⟨some "10"⟩, name := ⟨"a"⟩, tags := ⟨["t"]⟩,
      ingredients := ⟨["i"]⟩, instructions := ⟨["s"]⟩,
      published_at := some 7 } rfl

/-- C9: `Recipe::new` is deterministic when the time source is fixed: two
calls with structurally equal inputs and the same clock value give equal
results — both `Ok` with field-wise equal recipes or both `Err` with the
same message. -/
theorem C9_recipe_new_deterministic (ida idb namea nameb : String)
    (tagsa tagsb ingredientsa ingredientsb instructionsa
      instructionsb : List String) (nowa nowb : Nat)
    (h1 : ida = idb) (h2 : namea = nameb) (h3 : tagsa = tagsb)
    (h4 : ingredientsa = ingredientsb) (h5 : instructionsa = instructionsb)
    (h6 : nowa = nowb) :
    Recipe.new ida namea tagsa ingredientsa instructionsa nowa =
      Recipe.new idb nameb tagsb ingredientsb instructionsb nowb := by
  subst_vars
  rfl

/-- C9 witness: determinism at a concrete input with a fixed clock. -/
theorem C9_witness :
    Recipe.new "10" "a" ["t"] ["i"] ["s"] 3 =
      Recipe.new "10" "a" ["t"] ["i"] ["s"] 3 :=
  C9_recipe_new_deterministic "10" "10" "a" "a" ["t"] ["t"] ["i"] ["i"]
    ["s"] ["s"] 3 3 rfl rfl rfl rfl rfl rfl

/-- C10: validation checks only emptiness, never content: the
whitespace-only name " " is accepted as a valid `RecipeName`, and the
lists [""] whose single element is the empty string are accepted as valid
tags, ingredients and instructions. -/
theorem C10_validation_ignores_content :
    RecipeName.tryFrom " " = Except.ok ⟨" "⟩ ∧
    RecipeTags.tryFrom [""] = Except.ok ⟨[""]⟩ ∧
    RecipeIngredients.tryFrom [""] = Except.ok ⟨[""]⟩ ∧
    RecipeInstructions.tryFrom [""] = Except.ok ⟨[""]⟩ :=
  ⟨rfl, rfl, rfl, rfl⟩

end RecipesDomain
